import Mathlib

/-!
Shallow embedding of the FastAPI teaching snippets under `src/user_guide`.
Each route handler becomes a pure Lean function over explicit data models:
Python dicts become insertion-ordered association lists, Python floats become
rationals, `raise ValueError` becomes `Except.error`, optional parameters
become `Option`, and the one module-level list is passed as explicit state.
-/

namespace Validations

/-- Translation of `check_valid_id` from `04_validations.py` (lines 174-177):
raise a ValueError when the id starts with neither prefix string, otherwise
return the id unchanged. -/
def check_valid_id (id : String) : Except String String :=
  if !(id.startsWith "isbn-" || id.startsWith "imdb-") then
    Except.error "Invalid ID format, must start with \x27isbn-\x27 or \x27imdb-\x27"
  else
    Except.ok id

end Validations

namespace RequestBody

/-- The pydantic model `Item` of `03_request_body.py` (lines 17-21). -/
structure Item where
  name : String
  description : Option String
  price : Rat
  tax : Option Rat
deriving DecidableEq

/-- A JSON-like value appearing in the dict responses of `03_request_body.py`. -/
inductive Val where
  | s : String → Val
  | r : Rat → Val
  | i : Int → Val
  | null : Val
deriving DecidableEq

/-- An optional string field as it appears in `item.dict()`. -/
def strOpt : Option String → Val
  | some s => Val.s s
  | none => Val.null

/-- An optional float field as it appears in `item.dict()`. -/
def ratOpt : Option Rat → Val
  | some r => Val.r r
  | none => Val.null

/-- Translation of `item.dict()`: the four declared fields in declaration
order, with None for a missing optional field. -/
def Item.dict (item : Item) : List (String × Val) :=
  [("name", Val.s item.name), ("description", strOpt item.description),
   ("price", Val.r item.price), ("tax", ratOpt item.tax)]

/-- Translation of `create_item` (lines 25-27): echo the validated body. -/
def create_item (item : Item) : Item := item

/-- Translation of `create_item_with_tax` (lines 50-56): start from
`item.dict()` and, when tax is not None, append a `price_with_tax` key
bound to `price + tax`. -/
def create_item_with_tax (item : Item) : List (String × Val) :=
  let item_dict := item.dict
  match item.tax with
  | some t => item_dict ++ [("price_with_tax", Val.r (item.price + t))]
  | none => item_dict

/-- Translation of `update_item` (lines 64-69): merge the path parameter with
`item.dict()`, then add the key `q` only when the optional query string is
truthy (present and non-empty). -/
def update_item (item_id : Int) (item : Item) (q : Option String) :
    List (String × Val) :=
  let result := ("item_id", Val.i item_id) :: item.dict
  match q with
  | some s => if s = "" then result else result ++ [("q", Val.s s)]
  | none => result

end RequestBody

namespace AdvancedBody

/-- The pydantic model `Item` of `06_advanced_request_body.py` (lines 72-76). -/
structure Item where
  name : String
  description : Option String
  price : Rat
  tax : Option Rat
deriving DecidableEq

/-- The pydantic model `InnerItem` (lines 231-233). -/
structure InnerItem where
  url : String
  name : String
deriving DecidableEq

/-- A value in the dict responses of `06_advanced_request_body.py`. -/
inductive Val where
  | i : Int → Val
  | s : String → Val
  | item : Item → Val
deriving DecidableEq

/-- Translation of `update_item` (lines 78-89): start from the path
parameter, add `q` when the query string is truthy, and add `item` when the
optional body is present (a pydantic model instance is always truthy). -/
def update_item (item_id : Int) (q : Option String) (item : Option Item) :
    List (String × Val) :=
  let results := [("item_id", Val.i item_id)]
  let results := match q with
    | some s => if s = "" then results else results ++ [("q", Val.s s)]
    | none => results
  match item with
  | some it => results ++ [("item", Val.item it)]
  | none => results

/-- Translation of `create_multiple_images` (lines 308-310): echo the list. -/
def create_multiple_images (images : List InnerItem) : List InnerItem := images

/-- Translation of `create_index_weights` (lines 318-320): echo the dict of
int keys and float values. -/
def create_index_weights (weights : List (Int × Rat)) : List (Int × Rat) :=
  weights

end AdvancedBody

namespace PathParams

/-- The enum `ModelName` of `01_path_parameters.py` (lines 43-46). -/
inductive ModelName where
  | alexnet
  | resnet
  | lenet
deriving DecidableEq

/-- A value in the dict returned by `get_model`: the echoed enum member or a
message string. -/
inductive Val where
  | s : String → Val
  | m : ModelName → Val
deriving DecidableEq

/-- Translation of `get_model` (lines 50-57): test alexnet, then lenet, and
fall through to the residuals message. -/
def get_model (model_name : ModelName) : List (String × Val) :=
  if model_name = ModelName.alexnet then
    [("model_name", Val.m model_name), ("message", Val.s "Deep Learning FTW!")]
  else if model_name = ModelName.lenet then
    [("model_name", Val.m model_name), ("message", Val.s "LeCNN all the images")]
  else
    [("model_name", Val.m model_name), ("message", Val.s "Have some residuals")]

/-- A Python value returned by a handler of `01_path_parameters.py`: either a
set of strings or a string-keyed dict. -/
inductive PyVal where
  | set : Finset String → PyVal
  | dict : List (String × String) → PyVal
deriving DecidableEq

/-- Whether a returned value is a dict. -/
def PyVal.isDict : PyVal → Bool
  | PyVal.dict _ => true
  | PyVal.set _ => false

/-- Translation of `read_file` (lines 66-68): the body is
`return {"file_path", file_path}`, a set literal (comma, not colon), so the
handler returns the set holding the string "file_path" and the argument. -/
def read_file (file_path : String) : PyVal :=
  PyVal.set {"file_path", file_path}

end PathParams

namespace QueryParams

/-- One record of the module-level list: a dict with the key "item_name". -/
abbrev Entry := List (String × String)

/-- The module-level list `fake_items_db` of `query_parameters.py` (line 5). -/
def fake_items_db : List Entry :=
  [[("item_name", "Foo")], [("item_name", "Bar")], [("item_name", "Baz")]]

/-- Python list slicing `l[start:stop]`: a negative bound counts from the end
of the list and both bounds are clamped into the list. -/
def pySlice {α : Type} (l : List α) (start stop : Int) : List α :=
  let n : Int := l.length
  let lo : Int := if start < 0 then max (n + start) 0 else min start n
  let hi : Int := if stop < 0 then max (n + stop) 0 else min stop n
  (l.drop lo.toNat).take (hi - lo).toNat

/-- The shape returned by the paginating `read_item`: a dict with the fixed
keys "Query_Params" and "Content". -/
structure ReadItemResponse where
  query_params : String
  content : List Entry
deriving DecidableEq

/-- Translation of the paginating `read_item` (lines 14-19), with the module
state (the list `fake_items_db`) passed explicitly: the body only formats the
arguments and slices the list, so the state comes back unchanged. -/
def read_item (db : List Entry) (skip limit : Int) :
    ReadItemResponse × List Entry :=
  ({ query_params := s!"Skip: {skip}, Limit: {limit}",
     content := pySlice db skip (skip + limit) }, db)

/-- Translation of the optional-query `read_item` (lines 33-37): add the key
"q" only when the query string is truthy (present and non-empty). -/
def read_item_optional (item_id : String) (q : Option String) :
    List (String × String) :=
  match q with
  | some s => if s = "" then [("item_id", item_id)]
              else [("item_id", item_id), ("q", s)]
  | none => [("item_id", item_id)]

/-- A value in the dict returned by `read_user_item`. -/
inductive UVal where
  | i : Int → UVal
  | s : String → UVal
deriving DecidableEq

/-- Translation of `read_user_item` (lines 67-76): combine both path
parameters, add "q" when truthy, and add the description unless `short`. -/
def read_user_item (user_id : Int) (item_id : String) (q : Option String)
    (short : Bool) : List (String × UVal) :=
  let item := [("item_id", UVal.s item_id), ("user_id", UVal.i user_id)]
  let item := match q with
    | some s => if s = "" then item else item ++ [("q", UVal.s s)]
    | none => item
  if !short then
    item ++ [("description",
      UVal.s "This is not the greatest description, this is a tribute")]
  else item

end QueryParams

namespace QueryModels

/-- The query model `FilterParams` of `05_query_parameter_models.py`
(lines 8-12); `FilterParamsNoExtras` (lines 44-50) declares the same four
fields with the same constraints and defaults. -/
structure FilterParams where
  limit : Int
  offset : Int
  order_by : String
  tags : List String
deriving DecidableEq

/-- The field-level constraints declared by the Field and Literal
annotations: 0 < limit <= 100, 0 <= offset, order_by one of the two
literals. -/
def FilterParams.valid (p : FilterParams) : Prop :=
  0 < p.limit ∧ p.limit ≤ 100 ∧ 0 ≤ p.offset ∧
    (p.order_by = "created_at" ∨ p.order_by = "updated_at")

instance (p : FilterParams) : Decidable p.valid := by
  unfold FilterParams.valid
  infer_instance

/-- A raw query string before validation: a missing field means the declared
default applies; `extra_keys` lists query keys beyond the declared four. -/
structure RawParams where
  limit : Option Int
  offset : Option Int
  order_by : Option String
  tags : Option (List String)
  extra_keys : List String
deriving DecidableEq

/-- Filling in the declared defaults: limit 100, offset 0, order_by
"created_at", tags the empty list. -/
def resolve (raw : RawParams) : FilterParams :=
  { limit := raw.limit.getD 100
    offset := raw.offset.getD 0
    order_by := raw.order_by.getD "created_at"
    tags := raw.tags.getD [] }

/-- Modelled from the spec: the validation of `FilterParams` is performed by
the external framework from the declared Field constraints; it accepts a
query exactly when every declared field constraint holds of the resolved
values, and then hands the handler the resolved model. -/
def validate (raw : RawParams) : Option FilterParams :=
  if (resolve raw).valid then some (resolve raw) else none

/-- Modelled from the spec: `FilterParamsNoExtras` adds
`model_config extra = forbid`, so the framework additionally rejects any
query carrying a key beyond the declared four. -/
def validateNoExtras (raw : RawParams) : Option FilterParams :=
  if raw.extra_keys = [] then validate raw else none

/-- Translation of `read_items` (lines 15-19): echo the validated model. -/
def read_items (filter_query : FilterParams) : FilterParams := filter_query

end QueryModels

section Helpers

/-- Helper: the modelled validation accepts exactly the resolved models that
meet every declared field constraint. -/
theorem validate_eq_some_iff (raw : QueryModels.RawParams)
    (p : QueryModels.FilterParams) :
    QueryModels.validate raw = some p ↔
      (p = QueryModels.resolve raw ∧ p.valid) := by
  unfold QueryModels.validate
  constructor
  · intro hv
    split at hv
    · next hval =>
        injection hv with h2
        exact ⟨h2.symm, h2 ▸ hval⟩
    · exact Option.noConfusion hv
  · rintro ⟨hp, hval⟩
    subst hp
    rw [if_pos hval]

/-- Helper: Python slicing l[a : a + b] with non-negative a and b is
drop a then take b. -/
theorem pySlice_nonneg {α : Type} (l : List α) (a b : Int) (ha : 0 ≤ a)
    (hb : 0 ≤ b) :
    QueryParams.pySlice l a (a + b) = (l.drop a.toNat).take b.toNat := by
  simp only [QueryParams.pySlice]
  rw [if_neg (by omega), if_neg (by omega)]
  rcases le_or_lt (l.length : Int) a with h | h
  · rw [min_eq_right h, min_eq_right (by omega)]
    have h0 : ((l.length : Int) - l.length).toNat = 0 := by omega
    have hd : l.drop a.toNat = [] :=
      List.drop_eq_nil_of_le (by omega)
    rw [h0, List.take_zero, hd, List.take_nil]
  · rw [min_eq_left h.le]
    rcases le_or_lt (a + b) (l.length : Int) with h2 | h2
    · rw [min_eq_left h2]
      have h3 : (a + b - a).toNat = b.toNat := by omega
      rw [h3]
    · rw [min_eq_right h2.le]
      have hlen : (l.drop a.toNat).length = l.length - a.toNat :=
        List.length_drop a.toNat l
      rw [List.take_of_length_le (by omega), List.take_of_length_le (by omega)]

end Helpers

/-- C1: check_valid_id raises a ValueError exactly when its argument starts
with neither "isbn-" nor "imdb-"; for every id starting with one of the two
prefixes it returns that id unchanged and raises nothing. -/
theorem check_valid_id_error_iff :
    ∀ id : String,
      ((∃ e, Validations.check_valid_id id = Except.error e) ↔
        ¬ (id.startsWith "isbn-" = true ∨ id.startsWith "imdb-" = true)) ∧
      ((id.startsWith "isbn-" = true ∨ id.startsWith "imdb-" = true) →
        Validations.check_valid_id id = Except.ok id) := by
  intro id
  cases h1 : id.startsWith "isbn-" <;> cases h2 : id.startsWith "imdb-" <;>
    simp [Validations.check_valid_id, h1, h2]

/-- C2: when tax is present, create_item_with_tax returns the item fields
extended with the single extra key price_with_tax bound to price + tax (and
looking that key up in the result yields price + tax); when tax is None it
returns exactly the item fields. -/
theorem create_item_with_tax_spec :
    ∀ item : RequestBody.Item,
      (∀ t, item.tax = some t →
        RequestBody.create_item_with_tax item =
          item.dict ++
            [("price_with_tax", RequestBody.Val.r (item.price + t))] ∧
        (RequestBody.create_item_with_tax item).lookup "price_with_tax" =
          some (RequestBody.Val.r (item.price + t))) ∧
      (item.tax = none →
        RequestBody.create_item_with_tax item = item.dict ∧
        (RequestBody.create_item_with_tax item).lookup "price_with_tax" =
          none) := by
  intro item
  constructor
  · intro t ht
    constructor
    · simp [RequestBody.create_item_with_tax, ht]
    · simp [RequestBody.create_item_with_tax, RequestBody.Item.dict, ht,
        List.lookup]
  · intro ht
    constructor
    · simp [RequestBody.create_item_with_tax, ht]
    · simp [RequestBody.create_item_with_tax, RequestBody.Item.dict, ht,
        List.lookup]

/-- C3: the three pure-echo POST handlers return their validated input
unchanged: create_item echoes the Item, create_multiple_images echoes the
list of InnerItem in order, create_index_weights echoes the int-to-float
dict. -/
theorem echo_handlers_identity :
    (∀ item : RequestBody.Item, RequestBody.create_item item = item) ∧
    (∀ images : List AdvancedBody.InnerItem,
      AdvancedBody.create_multiple_images images = images) ∧
    (∀ weights : List (Int × Rat),
      AdvancedBody.create_index_weights weights = weights) :=
  ⟨fun _ => rfl, fun _ => rfl, fun _ => rfl⟩

/-- C4 (code bug): at the concrete input "notes.txt" the handler read_file
returns the Python set holding the two strings "file_path" and "notes.txt"
(the body is a set literal, comma instead of colon), not a key-value
mapping binding "file_path". -/
theorem read_file_returns_set_not_dict :
    PathParams.read_file "notes.txt" =
      PathParams.PyVal.set {"file_path", "notes.txt"} ∧
    (PathParams.read_file "notes.txt").isDict = false :=
  ⟨rfl, rfl⟩

/-- C5: a query is accepted for FilterParams exactly when the resolved values
meet the declared constraints (0 < limit <= 100, 0 <= offset, order_by one of
the two literals) and for FilterParamsNoExtras additionally when no extra key
is present; the declared defaults are limit 100, offset 0, order_by
"created_at" and the empty tags list, and the all-default query is
accepted. -/
theorem filter_params_validation :
    (∀ raw p, QueryModels.validate raw = some p ↔
      (p = QueryModels.resolve raw ∧
        0 < p.limit ∧ p.limit ≤ 100 ∧ 0 ≤ p.offset ∧
        (p.order_by = "created_at" ∨ p.order_by = "updated_at"))) ∧
    (∀ raw p, QueryModels.validateNoExtras raw = some p ↔
      (raw.extra_keys = [] ∧ p = QueryModels.resolve raw ∧ p.valid)) ∧
    QueryModels.resolve ⟨none, none, none, none, []⟩ =
      ⟨100, 0, "created_at", []⟩ ∧
    QueryModels.validate ⟨none, none, none, none, []⟩ =
      some ⟨100, 0, "created_at", []⟩ := by
  refine ⟨?_, ?_, rfl, by decide⟩
  · intro raw p
    rw [validate_eq_some_iff]
    unfold QueryModels.FilterParams.valid
    exact Iff.rfl
  · intro raw p
    unfold QueryModels.validateNoExtras
    split
    · next hext =>
        rw [validate_eq_some_iff]
        simp [hext]
    · next hext => simp [hext]

/-- C6: get_model binds "model_name" to the input enum member for every
input, and binds "message" to the message matching each member: alexnet to
the deep-learning message, lenet to the LeCNN message, resnet to the
residuals message. -/
theorem get_model_messages :
    (∀ m, (PathParams.get_model m).lookup "model_name" =
      some (PathParams.Val.m m)) ∧
    (PathParams.get_model PathParams.ModelName.alexnet).lookup "message" =
      some (PathParams.Val.s "Deep Learning FTW!") ∧
    (PathParams.get_model PathParams.ModelName.lenet).lookup "message" =
      some (PathParams.Val.s "LeCNN all the images") ∧
    (PathParams.get_model PathParams.ModelName.resnet).lookup "message" =
      some (PathParams.Val.s "Have some residuals") := by
  refine ⟨?_, by decide, by decide, by decide⟩
  intro m
  cases m <;> decide

/-- C7: the paginating read_item hands the module state back unchanged for
every skip and limit, and the module state fake_items_db is the literal
three-element list of the source. -/
theorem fake_items_db_frame :
    (∀ skip limit : Int,
      (QueryParams.read_item QueryParams.fake_items_db skip limit).2 =
        QueryParams.fake_items_db) ∧
    QueryParams.fake_items_db =
      [[("item_name", "Foo")], [("item_name", "Bar")],
       [("item_name", "Baz")]] :=
  ⟨fun _ _ => rfl, rfl⟩

/-- C8: for non-negative skip and limit, the paginating read_item returns a
"Content" value equal to the elements of fake_items_db from index skip up to
but excluding skip + limit (drop skip then take limit), of length at most
limit, empty once skip reaches the length 3, and the defaults skip = 0,
limit = 10 yield the whole list. -/
theorem read_item_pagination (skip limit : Int) (hs : 0 ≤ skip)
    (hl : 0 ≤ limit) :
    (QueryParams.read_item QueryParams.fake_items_db skip limit).1.content =
      (QueryParams.fake_items_db.drop skip.toNat).take limit.toNat ∧
    ((QueryParams.read_item QueryParams.fake_items_db skip
        limit).1.content).length ≤ limit.toNat ∧
    (3 ≤ skip →
      (QueryParams.read_item QueryParams.fake_items_db skip
        limit).1.content = []) ∧
    (QueryParams.read_item QueryParams.fake_items_db 0 10).1.content =
      QueryParams.fake_items_db := by
  have key :
      (QueryParams.read_item QueryParams.fake_items_db skip
        limit).1.content =
        (QueryParams.fake_items_db.drop skip.toNat).take limit.toNat :=
    pySlice_nonneg QueryParams.fake_items_db skip limit hs hl
  refine ⟨key, ?_, ?_, by decide⟩
  · rw [key]
    exact List.length_take_le limit.toNat _
  · intro h3
    rw [key]
    have hd : QueryParams.fake_items_db.drop skip.toNat = [] := by
      apply List.drop_eq_nil_of_le
      have hlen : QueryParams.fake_items_db.length = 3 := rfl
      omega
    rw [hd, List.take_nil]

/-- Witness for C8: at skip = 1 and limit = 2 both hypotheses hold and the
pagination theorem applies. -/
theorem read_item_pagination_witness :
    (QueryParams.read_item QueryParams.fake_items_db 1 2).1.content =
      (QueryParams.fake_items_db.drop (1 : Int).toNat).take (2 : Int).toNat :=
  (read_item_pagination 1 2 (by decide) (by decide)).1

/-- C9: in each handler taking an optional query string q defaulting to
None, the key "q" appears in the returned dict exactly when q is present and
non-empty, and supplying the empty string yields the same response as not
supplying q at all. -/
theorem optional_q_key_iff :
    (∀ item_id q,
      "q" ∈ (QueryParams.read_item_optional item_id q).map Prod.fst ↔
        (q ≠ none ∧ q ≠ some "")) ∧
    (∀ item_id,
      QueryParams.read_item_optional item_id (some "") =
        QueryParams.read_item_optional item_id none) ∧
    (∀ item_id item q,
      "q" ∈ (RequestBody.update_item item_id item q).map Prod.fst ↔
        (q ≠ none ∧ q ≠ some "")) ∧
    (∀ item_id item,
      RequestBody.update_item item_id item (some "") =
        RequestBody.update_item item_id item none) ∧
    (∀ item_id q item,
      "q" ∈ (AdvancedBody.update_item item_id q item).map Prod.fst ↔
        (q ≠ none ∧ q ≠ some "")) ∧
    (∀ item_id item,
      AdvancedBody.update_item item_id (some "") item =
        AdvancedBody.update_item item_id none item) := by
  refine ⟨?_, ?_, ?_, ?_, ?_, ?_⟩
  · intro item_id q
    rcases q with _ | s
    · simp [QueryParams.read_item_optional]
    · rcases eq_or_ne s "" with hs | hs
      · subst hs
        simp [QueryParams.read_item_optional]
      · simp [QueryParams.read_item_optional, hs]
  · intro item_id
    simp [QueryParams.read_item_optional]
  · intro item_id item q
    rcases q with _ | s
    · simp [RequestBody.update_item, RequestBody.Item.dict]
    · rcases eq_or_ne s "" with hs | hs
      · subst hs
        simp [RequestBody.update_item, RequestBody.Item.dict]
      · simp [RequestBody.update_item, RequestBody.Item.dict, hs]
  · intro item_id item
    simp [RequestBody.update_item]
  · intro item_id q item
    rcases q with _ | s
    · rcases item with _ | it <;> simp [AdvancedBody.update_item]
    · rcases eq_or_ne s "" with hs | hs
      · subst hs
        rcases item with _ | it <;> simp [AdvancedBody.update_item]
      · rcases item with _ | it <;> simp [AdvancedBody.update_item, hs]
  · intro item_id item
    rcases item with _ | it <;> simp [AdvancedBody.update_item]

/-- C10: the handlers are deterministic: two calls of read_user_item,
update_item or get_model with equal arguments return equal values, the
embedding being pure functions of the arguments and the constant list. -/
theorem handlers_deterministic :
    (∀ u i q s u2 i2 q2 s2, u = u2 → i = i2 → q = q2 → s = s2 →
      QueryParams.read_user_item u i q s =
        QueryParams.read_user_item u2 i2 q2 s2) ∧
    (∀ a it q a2 it2 q2, a = a2 → it = it2 → q = q2 →
      RequestBody.update_item a it q = RequestBody.update_item a2 it2 q2) ∧
    (∀ m m2, m = m2 → PathParams.get_model m = PathParams.get_model m2) := by
  refine ⟨?_, ?_, ?_⟩ <;> intros <;> subst_vars <;> rfl
